import Mathlib

/-
Verification development for the FPCUP-Baltic raster pipelines.

The repository holds three batch scripts that do elementwise array
arithmetic over same-shaped rasters:
  * calculate_htc.py      - sums temperature and precipitation stacks per
    year, forms the ratio HTC = OPAD / TEMP, scrubs NaN, and in a second
    phase takes a per-pixel multi-year median with negative pixels
    replaced by NaN;
  * copernicus_tci.py     - scales raw TCI values into an 8-bit range with
    a sentinel, and writes scaled / color-mapped rasters carrying the
    source CRS and transform;
  * copernicus_tci_diss.py - combines three TCI periods into memory terms,
    applies an exponential DISS formula, a land-use mask, and a
    classification by fixed bin edges.

All numpy arithmetic is elementwise, so rasters are modelled as functions
from an abstract pixel type to values, and per-pixel stacks as lists.
Floating-point values are modelled exactly: a value is NaN, a signed
infinity, or a finite rational; IEEE addition, true division, comparison
and NaN propagation are embedded, while rounding is abstracted away.
-/

/-- IEEE-style extended value as produced by numpy float arithmetic:
not-a-number, a signed infinity (the flag is true for negative infinity),
or a finite value modelled exactly as a rational. -/
inductive FVal where
  | nan : FVal
  | inf : Bool → FVal
  | fin : ℚ → FVal
deriving DecidableEq, Repr

/-- NaN test, as numpy's isnan. -/
def FVal.isnan : FVal → Bool
  | .nan => true
  | _ => false

/-- IEEE addition on extended values: NaN absorbs, infinities of opposite
sign give NaN, an infinity dominates a finite value, finite values add
exactly. -/
def FVal.add : FVal → FVal → FVal
  | .nan, _ => .nan
  | _, .nan => .nan
  | .inf s, .inf t => if s = t then .inf s else .nan
  | .inf s, .fin _ => .inf s
  | .fin _, .inf t => .inf t
  | .fin a, .fin b => .fin (a + b)

/-- IEEE true division on extended values, as numpy's `/` on floats:
NaN absorbs; inf/inf is NaN; an infinity over a finite value is a signed
infinity; a finite value over an infinity is zero; a nonzero finite value
over zero is a signed infinity and 0/0 is NaN; otherwise exact rational
division. -/
def FVal.div : FVal → FVal → FVal
  | .nan, _ => .nan
  | _, .nan => .nan
  | .inf _, .inf _ => .nan
  | .inf s, .fin b => if b < 0 then .inf (!s) else .inf s
  | .fin _, .inf _ => .fin 0
  | .fin a, .fin b =>
      if b = 0 then (if a = 0 then .nan else .inf (decide (a < 0)))
      else .fin (a / b)

/-- IEEE strict less-than on extended values: any comparison with NaN is
false; negative infinity is below everything else; positive infinity is
above every finite value; finite values compare exactly. -/
def FVal.lt : FVal → FVal → Bool
  | .nan, _ => false
  | _, .nan => false
  | .inf true, .inf true => false
  | .inf true, _ => true
  | .inf false, _ => false
  | .fin _, .inf false => true
  | .fin _, .inf true => false
  | .fin a, .fin b => decide (a < b)

/-- The value is zero or greater: a nonnegative finite value or positive
infinity. NaN and negative values are excluded. -/
def fvalNonneg : FVal → Prop
  | .nan => False
  | .inf s => s = false
  | .fin q => 0 ≤ q

/-- numpy's `np.sum(stack, axis=0)` at one pixel: fold of IEEE addition
over the per-raster values at that pixel, starting from 0. -/
def npSum (xs : List FVal) : FVal := xs.foldl FVal.add (.fin 0)

/-- Elementwise sum of a raster stack, as `np.sum(np.array([...]), axis=0)`
in calculate_htc.py lines 35 and 38 (the TEMP and OPAD arrays). -/
def stackSum {Pix : Type} (stack : List (Pix → FVal)) (p : Pix) : FVal :=
  npSum (stack.map (fun r => r p))

/-- The NaN scrub of calculate_htc.py line 43:
`HTC = np.where(np.isnan(HTC), np.nan, HTC)` at one pixel. -/
def htcNanScrub (a : FVal) : FVal := if a.isnan then .nan else a

/-- The yearly HTC raster of calculate_htc.py lines 41-43: the elementwise
ratio `OPAD / TEMP` of the precipitation-stack sum over the
temperature-stack sum, followed by the NaN scrub of line 43. -/
def HTC {Pix : Type} (rs_T rs_P : List (Pix → FVal)) (p : Pix) : FVal :=
  htcNanScrub (FVal.div (stackSum rs_P p) (stackSum rs_T p))

/-- The scrub `np.where(np.isnan(a), np.nan, a)` returns its input value
in every case. -/
theorem htcNanScrub_id (a : FVal) : htcNanScrub a = a := by
  cases a <;> rfl

/-- C1: For every year bucket, the aggregator's yearly output raster
equals, pixelwise, the elementwise sum of the precipitation rasters
divided by the elementwise sum of the temperature rasters; in particular
for a pixel where four temperature rasters each hold 1 and four
precipitation rasters each hold 2 the output pixel is 8/4 = 2. -/
theorem C1_htc_yearly_ratio :
    (∀ (Pix : Type) (rs_T rs_P : List (Pix → FVal)) (p : Pix),
      HTC rs_T rs_P p = FVal.div (stackSum rs_P p) (stackSum rs_T p)) ∧
    @HTC Unit
      [fun _ => .fin 1, fun _ => .fin 1, fun _ => .fin 1, fun _ => .fin 1]
      [fun _ => .fin 2, fun _ => .fin 2, fun _ => .fin 2, fun _ => .fin 2]
      () = .fin 2 := by
  refine ⟨fun Pix rs_T rs_P p => htcNanScrub_id _, ?_⟩
  norm_num [HTC, stackSum, npSum, FVal.add, FVal.div, htcNanScrub, FVal.isnan]

/-- C10: The aggregator's explicit NaN scrub step, mapping each array A to
`np.where(np.isnan(A), np.nan, A)`, is the identity: NaN pixels stay NaN
and all other pixels are unchanged, both per value and per array. -/
theorem C10_nan_scrub_identity :
    (∀ a : FVal, htcNanScrub a = a) ∧
    (∀ A : List FVal, A.map htcNanScrub = A) := by
  refine ⟨htcNanScrub_id, fun A => ?_⟩
  induction A with
  | nil => rfl
  | cons a t ih => simp [htcNanScrub_id a, ih]

/-- C4 counterexample: at a pixel where the temperature stack sums to 0
and the precipitation stack sums to 5, the code's ratio is positive
infinity, not NaN — refuting the claim that a zero temperature sum always
yields a NaN ratio pixel. -/
theorem C4_zero_temp_counterexample :
    @stackSum Unit [fun _ => .fin 0] () = .fin 0 ∧
    @HTC Unit [fun _ => .fin 0] [fun _ => .fin 5] () = .inf false ∧
    FVal.inf false ≠ FVal.nan := by
  refine ⟨?_, ?_, by decide⟩ <;>
    norm_num [HTC, stackSum, npSum, FVal.add, FVal.div, htcNanScrub, FVal.isnan]

/-- C4 (amended): if the temperature and precipitation sums at a pixel are
both zero, or either sum is NaN, the ratio pixel is NaN; a zero
temperature sum with a nonzero finite precipitation sum yields a signed
infinity instead; the division is total (modelled by a total function, it
never raises). -/
theorem C4_htc_nan_policy_amended {Pix : Type}
    (rs_T rs_P : List (Pix → FVal)) (p : Pix) :
    (stackSum rs_T p = .fin 0 → stackSum rs_P p = .fin 0 →
      HTC rs_T rs_P p = .nan) ∧
    ((stackSum rs_T p).isnan = true → HTC rs_T rs_P p = .nan) ∧
    ((stackSum rs_P p).isnan = true → HTC rs_T rs_P p = .nan) ∧
    (∀ q : ℚ, q ≠ 0 → stackSum rs_T p = .fin 0 → stackSum rs_P p = .fin q →
      HTC rs_T rs_P p = .inf (decide (q < 0))) := by
  refine ⟨?_, ?_, ?_, ?_⟩
  · intro hT hP
    simp [HTC, hT, hP, FVal.div, htcNanScrub, FVal.isnan]
  · intro hT
    cases hS : stackSum rs_T p with
    | nan =>
        cases hP : stackSum rs_P p <;>
          simp [HTC, hS, hP, FVal.div, htcNanScrub, FVal.isnan]
    | inf s => rw [hS] at hT; simp [FVal.isnan] at hT
    | fin q => rw [hS] at hT; simp [FVal.isnan] at hT
  · intro hP
    cases hS : stackSum rs_P p with
    | nan =>
        cases hT : stackSum rs_T p <;>
          simp [HTC, hS, hT, FVal.div, htcNanScrub, FVal.isnan]
    | inf s => rw [hS] at hP; simp [FVal.isnan] at hP
    | fin q => rw [hS] at hP; simp [FVal.isnan] at hP
  · intro q hq hT hP
    simp [HTC, hT, hP, FVal.div, hq, htcNanScrub, FVal.isnan]

/-- C4 amended, witnessed at a concrete pixel: both sums zero gives NaN. -/
theorem C4_htc_nan_policy_amended_witness :
    @HTC Unit [fun _ => .fin 0] [fun _ => .fin 0] () = .nan :=
  (C4_htc_nan_policy_amended [fun _ => .fin 0] [fun _ => .fin 0] ()).1
    (by norm_num [stackSum, npSum, FVal.add])
    (by norm_num [stackSum, npSum, FVal.add])

/-- IEEE-style non-strict comparison used to order values when computing a
median: negative infinity sorts first, positive infinity after every
finite value, finite values compare exactly; NaN sorts last (unreachable
in npMedian, which returns NaN as soon as a NaN is present). -/
def fvalLe : FVal → FVal → Bool
  | _, .nan => true
  | .nan, _ => false
  | .inf true, _ => true
  | _, .inf true => false
  | _, .inf false => true
  | .inf false, _ => false
  | .fin a, .fin b => decide (a ≤ b)

/-- Insert a value into a list sorted by fvalLe. -/
def fvalInsert (x : FVal) : List FVal → List FVal
  | [] => [x]
  | y :: ys => if fvalLe x y then x :: y :: ys else y :: fvalInsert x ys

/-- Sort a list of values by fvalLe (insertion sort; the sorted sequence
is what numpy's partition-based median selects from). -/
def fvalSort : List FVal → List FVal
  | [] => []
  | x :: xs => fvalInsert x (fvalSort xs)

/-- numpy's `np.median(stack, axis=0)` at one pixel: NaN when any value of
the stack is NaN (and for an empty stack); otherwise the middle element of
the sorted values when the count is odd, and the IEEE mean of the two
middle elements when the count is even. -/
def npMedian (xs : List FVal) : FVal :=
  if xs.any FVal.isnan then .nan
  else
    let s := fvalSort xs
    if s.length = 0 then .nan
    else if s.length % 2 = 1 then s.getD (s.length / 2) .nan
    else FVal.div (FVal.add (s.getD (s.length / 2 - 1) .nan)
      (s.getD (s.length / 2) .nan)) (.fin 2)

/-- The multi-year median pixel of calculate_htc.py lines 62-64:
`HTC_MEDIAN = np.median(stack, axis=0)` followed by the boolean-mask
assignment `HTC_MEDIAN[HTC_MEDIAN < 0] = np.nan`, i.e. pixels where the
elementwise IEEE less-than against 0 holds (false on NaN) are overwritten
with NaN. -/
def HTC_MEDIAN (xs : List FVal) : FVal :=
  if FVal.lt (npMedian xs) (.fin 0) then .nan else npMedian xs

/-- Every scrubbed median pixel is NaN or nonnegative. -/
theorem HTC_MEDIAN_nonneg (xs : List FVal) :
    HTC_MEDIAN xs = .nan ∨ fvalNonneg (HTC_MEDIAN xs) := by
  unfold HTC_MEDIAN
  generalize npMedian xs = m
  cases m with
  | nan => left; simp [FVal.lt]
  | inf s =>
      cases s
      · right; simp [FVal.lt, fvalNonneg]
      · left; simp [FVal.lt]
  | fin q =>
      by_cases hq : q < 0
      · left; simp [FVal.lt, hq]
      · right; simp [FVal.lt, hq, fvalNonneg, le_of_not_lt hq]

/-- C5: The aggregator's multi-year output pixel equals the per-pixel
median over the stack with every negative median replaced by NaN; hence
every output pixel is NaN or nonnegative, the single-pixel stack
[1,2,3,4,5] yields 3, and an all-(-1) stack yields NaN. -/
theorem C5_htc_median :
    (∀ xs : List FVal,
      (FVal.lt (npMedian xs) (.fin 0) = true → HTC_MEDIAN xs = .nan) ∧
      (FVal.lt (npMedian xs) (.fin 0) = false → HTC_MEDIAN xs = npMedian xs) ∧
      (HTC_MEDIAN xs = .nan ∨ fvalNonneg (HTC_MEDIAN xs))) ∧
    HTC_MEDIAN [.fin 1, .fin 2, .fin 3, .fin 4, .fin 5] = .fin 3 ∧
    HTC_MEDIAN [.fin (-1), .fin (-1), .fin (-1)] = .nan := by
  refine ⟨fun xs => ⟨?_, ?_, HTC_MEDIAN_nonneg xs⟩, ?_, ?_⟩
  · intro h; simp [HTC_MEDIAN, h]
  · intro h; simp [HTC_MEDIAN, h]
  · norm_num [HTC_MEDIAN, npMedian, fvalSort, fvalInsert, fvalLe,
      FVal.isnan, FVal.lt, List.getD]
  · norm_num [HTC_MEDIAN, npMedian, fvalSort, fvalInsert, fvalLe,
      FVal.isnan, FVal.lt, List.getD]

/-- C5 witnessed at a concrete stack: a single-year stack holding -2 has
negative median and is scrubbed to NaN. -/
theorem C5_htc_median_witness :
    HTC_MEDIAN [FVal.fin (-2)] = FVal.nan :=
  (C5_htc_median.1 [FVal.fin (-2)]).1
    (by norm_num [npMedian, fvalSort, fvalInsert, fvalLe, FVal.isnan,
      FVal.lt, List.getD])

/-- Truncation of a rational toward zero, as the C-style cast from a float
to an integer type performs. -/
def ratTrunc (q : ℚ) : ℤ := if q < 0 then ⌈q⌉ else ⌊q⌋

/-- numpy's `.astype(np.uint8)` on one float value: truncate toward zero
and wrap into the 0-255 range (the wrap-around numpy exhibits for
out-of-range values on common platforms). -/
def toUint8 (q : ℚ) : ℕ := (ratTrunc q % 256).toNat

/-- The scaling of copernicus_tci.py lines 105-106 at one pixel of raw
value v: `np.where((data >= 0) & (data <= 10000), ((data / 100) + 1), 108)`
followed by `.astype(np.uint8)`. -/
def scaled_data (v : ℚ) : ℕ :=
  toUint8 (if 0 ≤ v ∧ v ≤ 10000 then v / 100 + 1 else 108)

/-- For an in-range raw value the scaled value is the plain truncation of
(v/100)+1 — the wrap of the 8-bit cast never fires — and lies in [1, 101]. -/
theorem scaled_data_in_range (v : ℚ) (h0 : 0 ≤ v) (h1 : v ≤ 10000) :
    scaled_data v = (ratTrunc (v / 100 + 1)).toNat ∧
    1 ≤ scaled_data v ∧ scaled_data v ≤ 101 := by
  have hq1 : (1 : ℚ) ≤ v / 100 + 1 := by
    have hd : (0 : ℚ) ≤ v / 100 := by positivity
    linarith
  have hq2 : v / 100 + 1 ≤ 101 := by
    have hd : v / 100 ≤ 100 := by
      rw [div_le_iff₀ (by norm_num : (0:ℚ) < 100)]
      linarith
    linarith
  have ht : ratTrunc (v / 100 + 1) = ⌊v / 100 + 1⌋ := by
    unfold ratTrunc
    rw [if_neg (not_lt.mpr (by linarith))]
  have hf1 : (1 : ℤ) ≤ ⌊v / 100 + 1⌋ := by
    rw [Int.le_floor]
    exact_mod_cast hq1
  have hf2 : ⌊v / 100 + 1⌋ ≤ 101 := by
    have hfl : (⌊v / 100 + 1⌋ : ℚ) ≤ v / 100 + 1 := Int.floor_le _
    have hc : (⌊v / 100 + 1⌋ : ℚ) ≤ 101 := le_trans hfl hq2
    exact_mod_cast hc
  have hs : scaled_data v = (ratTrunc (v / 100 + 1) % 256).toNat := by
    unfold scaled_data toUint8
    rw [if_pos ⟨h0, h1⟩]
  rw [hs, ht]
  omega

/-- C2: The scaled output equals ((raw/100)+1) cast to an 8-bit unsigned
integer when the raw value lies in [0, 10000] and the sentinel 108
otherwise; raw 0 maps to 1, raw 10000 to 101, raw 10001 to 108, raw -1 to
108; every scaled value lies in [1, 101] or equals 108, so the 8-bit cast
never wraps. -/
theorem C2_tci_scaling (v : ℚ) :
    (0 ≤ v → v ≤ 10000 →
      scaled_data v = toUint8 (v / 100 + 1) ∧
      scaled_data v = (ratTrunc (v / 100 + 1)).toNat ∧
      1 ≤ scaled_data v ∧ scaled_data v ≤ 101) ∧
    (¬ (0 ≤ v ∧ v ≤ 10000) → scaled_data v = 108) ∧
    ((1 ≤ scaled_data v ∧ scaled_data v ≤ 101) ∨ scaled_data v = 108) ∧
    scaled_data 0 = 1 ∧ scaled_data 10000 = 101 ∧
    scaled_data 10001 = 108 ∧ scaled_data (-1) = 108 := by
  have hout : ¬ (0 ≤ v ∧ v ≤ 10000) → scaled_data v = 108 := by
    intro h
    simp only [scaled_data, if_neg h]
    norm_num [toUint8, ratTrunc, Int.toNat_ofNat] <;> decide
  refine ⟨?_, hout, ?_, ?_, ?_, ?_, ?_⟩
  · intro h0 h1
    have hin := scaled_data_in_range v h0 h1
    refine ⟨?_, hin.1, hin.2.1, hin.2.2⟩
    simp only [scaled_data, if_pos (And.intro h0 h1)]
  · by_cases hc : 0 ≤ v ∧ v ≤ 10000
    · exact Or.inl (scaled_data_in_range v hc.1 hc.2).2
    · exact Or.inr (hout hc)
  · norm_num [scaled_data, toUint8, ratTrunc, Int.toNat_ofNat] <;> decide
  · norm_num [scaled_data, toUint8, ratTrunc, Int.toNat_ofNat] <;> decide
  · norm_num [scaled_data, toUint8, ratTrunc, Int.toNat_ofNat] <;> decide
  · norm_num [scaled_data, toUint8, ratTrunc, Int.toNat_ofNat] <;> decide

/-- C2 witnessed at raw value 250: the scaled value is the truncation of
(250/100)+1 = 3.5, inside [1, 101]. -/
theorem C2_tci_scaling_witness :
    scaled_data 250 = (ratTrunc (250 / 100 + 1)).toNat ∧
    1 ≤ scaled_data 250 ∧ scaled_data 250 ≤ 101 :=
  ((C2_tci_scaling 250).1 (by norm_num) (by norm_num)).2

/-- The current-period memory term of copernicus_tci_diss.py line 82 at
one pixel: `n1_memory = np.where(n1_tci1 <= 101, n1_tci1, 50)`. -/
def n1_memory (t1 : ℚ) : ℚ := if t1 ≤ 101 then t1 else 50

/-- The previous-period memory term of copernicus_tci_diss.py line 83 at
one pixel: `n2_memory = np.where(n2_tci2 <= 101, n2_tci2, 0.5 * (n1_tci1 + n3_tci3))`. -/
def n2_memory (t1 t2 t3 : ℚ) : ℚ := if t2 ≤ 101 then t2 else 0.5 * (t1 + t3)

/-- The two-periods-back memory term of copernicus_tci_diss.py line 84 at
one pixel: `n3_memory = np.where(n3_tci3 <= 101, n3_tci3, 50)`. -/
def n3_memory (t3 : ℚ) : ℚ := if t3 ≤ 101 then t3 else 50

/-- C3: Each memory term equals its source when the source is within the
valid index range (<= 101); an invalid current-period or two-periods-back
source is replaced by the default 50; and when the middle source alone is
invalid, the middle term is the average of the two neighbouring valid
terms. -/
theorem C3_diss_memory_terms (t1 t2 t3 : ℚ) :
    (t1 ≤ 101 → n1_memory t1 = t1) ∧
    (¬ t1 ≤ 101 → n1_memory t1 = 50) ∧
    (t2 ≤ 101 → n2_memory t1 t2 t3 = t2) ∧
    (t3 ≤ 101 → n3_memory t3 = t3) ∧
    (¬ t3 ≤ 101 → n3_memory t3 = 50) ∧
    (¬ t2 ≤ 101 → t1 ≤ 101 → t3 ≤ 101 →
      n2_memory t1 t2 t3 = (n1_memory t1 + n3_memory t3) / 2) := by
  refine ⟨?_, ?_, ?_, ?_, ?_, ?_⟩
  · intro h; simp [n1_memory, h]
  · intro h; simp [n1_memory, h]
  · intro h; simp [n2_memory, h]
  · intro h; simp [n3_memory, h]
  · intro h; simp [n3_memory, h]
  · intro h h1 h3
    simp only [n2_memory, n1_memory, n3_memory, if_neg h, if_pos h1, if_pos h3]
    ring

/-- C3 witnessed at a pixel where the middle source 200 alone is invalid
and the neighbours are 30 and 40: the middle term is their average 35. -/
theorem C3_diss_memory_terms_witness :
    n2_memory 30 200 40 = (n1_memory 30 + n3_memory 40) / 2 :=
  (C3_diss_memory_terms 30 200 40).2.2.2.2.2
    (by norm_num) (by norm_num) (by norm_num)

/-- The DISS formula of copernicus_tci_diss.py line 87 at one pixel:
`n4_diss = (n5_siel40median - diss_base) * np.exp(2 * (exp_factor + a*n1_memory + b*n2_memory + c*n3_memory))`.
The coefficients a, b, c, diss_base and exp_factor are unset placeholders
in the source and enter as parameters; np.exp enters as an opaque function
expf, since no claim depends on its values. -/
def n4_diss (expf : ℚ → ℚ) (n5 diss_base exp_factor a b c m1 m2 m3 : ℚ) : ℚ :=
  (n5 - diss_base) * expf (2 * (exp_factor + a * m1 + b * m2 + c * m3))

/-- The land-use masking of copernicus_tci_diss.py line 90 at one pixel:
`n4_diss = np.where(n6_mask == 1, n4_diss, -1)`. -/
def n4_diss_masked (expf : ℚ → ℚ)
    (n5 diss_base exp_factor a b c m1 m2 m3 mask : ℚ) : ℚ :=
  if mask = 1 then n4_diss expf n5 diss_base exp_factor a b c m1 m2 m3 else -1

/-- C7: Where the land-use mask differs from 1 the combiner's continuous
output is -1 regardless of the value computed by the exponential formula;
where the mask equals 1 the output is the computed formula value. -/
theorem C7_diss_mask (expf : ℚ → ℚ)
    (n5 diss_base exp_factor a b c m1 m2 m3 mask : ℚ) :
    (mask ≠ 1 →
      n4_diss_masked expf n5 diss_base exp_factor a b c m1 m2 m3 mask = -1) ∧
    (mask = 1 →
      n4_diss_masked expf n5 diss_base exp_factor a b c m1 m2 m3 mask =
        n4_diss expf n5 diss_base exp_factor a b c m1 m2 m3) := by
  constructor
  · intro h; simp [n4_diss_masked, h]
  · intro h; simp [n4_diss_masked, h]

/-- C7 witnessed at a pixel with mask value 0: the output is -1. -/
theorem C7_diss_mask_witness :
    n4_diss_masked id 10 2 3 1 1 1 5 5 5 0 = -1 :=
  (C7_diss_mask id 10 2 3 1 1 1 5 5 5 0).1 (by norm_num)

/-- The classification bin edges of copernicus_tci_diss.py line 96,
`bins=[0.0, 0.5, 0.8, 1.5, 5.0, np.inf]`, without the final +infinity
edge: that edge compares strictly greater than every finite value and so
never counts for a finite input. -/
def dissBins : List ℚ := [0, 0.5, 0.8, 1.5, 5]

/-- numpy's `np.digitize(x, bins)` of copernicus_tci_diss.py line 96 for
monotonically increasing bins and the default right=False, at one finite
pixel value: the number of bin edges less than or equal to x (searchsorted
with side right). -/
def n2_diss_kl (x : ℚ) : ℕ := dissBins.countP (fun e => decide (e ≤ x))

/-- C6: The class of a finite DISS value is its bin index under the fixed
edges [0.0, 0.5, 0.8, 1.5, 5.0, +inf) with the left-inclusive convention:
a value equal to any of the five finite edges falls into the bin starting
at that edge; in particular a DISS value of exactly 0.5 is classified into
the bin beginning at 0.5. -/
theorem C6_diss_classification (x : ℚ) :
    (x < 0 → n2_diss_kl x = 0) ∧
    (0 ≤ x → x < 0.5 → n2_diss_kl x = 1) ∧
    (0.5 ≤ x → x < 0.8 → n2_diss_kl x = 2) ∧
    (0.8 ≤ x → x < 1.5 → n2_diss_kl x = 3) ∧
    (1.5 ≤ x → x < 5 → n2_diss_kl x = 4) ∧
    (5 ≤ x → n2_diss_kl x = 5) ∧
    n2_diss_kl 0 = 1 ∧ n2_diss_kl 0.5 = 2 ∧ n2_diss_kl 0.8 = 3 ∧
    n2_diss_kl 1.5 = 4 ∧ n2_diss_kl 5 = 5 := by
  refine ⟨?_, ?_, ?_, ?_, ?_, ?_, ?_, ?_, ?_, ?_, ?_⟩
  · intro h
    have c0 : ¬ (0:ℚ) ≤ x := not_le.mpr h
    have c1 : ¬ (0.5:ℚ) ≤ x := by rw [not_le]; linarith
    have c2 : ¬ (0.8:ℚ) ≤ x := by rw [not_le]; linarith
    have c3 : ¬ (1.5:ℚ) ≤ x := by rw [not_le]; linarith
    have c4 : ¬ (5:ℚ) ≤ x := by rw [not_le]; linarith
    simp [n2_diss_kl, dissBins, c0, c1, c2, c3, c4]
  · intro h0 h
    have c1 : ¬ (0.5:ℚ) ≤ x := not_le.mpr h
    have c2 : ¬ (0.8:ℚ) ≤ x := by rw [not_le]; linarith
    have c3 : ¬ (1.5:ℚ) ≤ x := by rw [not_le]; linarith
    have c4 : ¬ (5:ℚ) ≤ x := by rw [not_le]; linarith
    simp [n2_diss_kl, dissBins, h0, c1, c2, c3, c4]
  · intro h1 h
    have c0 : (0:ℚ) ≤ x := by linarith
    have c2 : ¬ (0.8:ℚ) ≤ x := not_le.mpr h
    have c3 : ¬ (1.5:ℚ) ≤ x := by rw [not_le]; linarith
    have c4 : ¬ (5:ℚ) ≤ x := by rw [not_le]; linarith
    simp [n2_diss_kl, dissBins, c0, h1, c2, c3, c4]
  · intro h2 h
    have c0 : (0:ℚ) ≤ x := by linarith
    have c1 : (0.5:ℚ) ≤ x := by linarith
    have c3 : ¬ (1.5:ℚ) ≤ x := not_le.mpr h
    have c4 : ¬ (5:ℚ) ≤ x := by rw [not_le]; linarith
    simp [n2_diss_kl, dissBins, c0, c1, h2, c3, c4]
  · intro h3 h
    have c0 : (0:ℚ) ≤ x := by linarith
    have c1 : (0.5:ℚ) ≤ x := by linarith
    have c2 : (0.8:ℚ) ≤ x := by linarith
    have c4 : ¬ (5:ℚ) ≤ x := not_le.mpr h
    simp [n2_diss_kl, dissBins, c0, c1, c2, h3, c4]
  · intro h4
    have c0 : (0:ℚ) ≤ x := by linarith
    have c1 : (0.5:ℚ) ≤ x := by linarith
    have c2 : (0.8:ℚ) ≤ x := by linarith
    have c3 : (1.5:ℚ) ≤ x := by linarith
    simp [n2_diss_kl, dissBins, c0, c1, c2, c3, h4]
  · norm_num [n2_diss_kl, dissBins, List.countP_cons, List.countP_nil]
  · norm_num [n2_diss_kl, dissBins, List.countP_cons, List.countP_nil]
  · norm_num [n2_diss_kl, dissBins, List.countP_cons, List.countP_nil]
  · norm_num [n2_diss_kl, dissBins, List.countP_cons, List.countP_nil]
  · norm_num [n2_diss_kl, dissBins, List.countP_cons, List.countP_nil]

/-- C6 witnessed at the edge value 0.5: the class is 2, the bin beginning
at 0.5, not the bin ending there. -/
theorem C6_diss_classification_witness :
    n2_diss_kl 0.5 = 2 :=
  (C6_diss_classification 0.5).2.2.1 (by norm_num) (by norm_num)

/-- Python string slicing s[a:b] over character positions. -/
def pySlice (s : String) (a b : Nat) : String :=
  String.mk ((s.toList.drop a).take (b - a))

/-- os.path.join for a directory that already ends with the path
separator, as the literal `htc_dir = "PATH_TO_HTC_DATA/"` of
calculate_htc.py line 51 does: plain concatenation. -/
def pathJoin (dir name : String) : String := dir ++ name

/-- Python's str.endswith('.tif') over the characters of the string. -/
def endsWithTif (name : String) : Bool :=
  decide ((name.toList.drop (name.toList.length - 4)) = ['.', 't', 'i', 'f'])

/-- The second configured year range of calculate_htc.py line 55:
`htc_years = list(range(2001, 2025))`, i.e. 2001 through 2024. -/
def htc_years : List ℕ := List.range' 2001 24

/-- `map(str, htc_years)` of calculate_htc.py line 56. -/
def htcYearStrings : List String := htc_years.map toString

/-- The second-phase selection of calculate_htc.py lines 53-56: a file of
the HTC output directory joins the median stack exactly when its name
ends in .tif and characters 4 to 8 of the JOINED path
`os.path.join(htc_dir, f)` equal the decimal string of a year of
htc_years (the filter `f[4:8] in map(str, htc_years)` runs on the joined
path, not on the bare filename). -/
def htcFilter (dir name : String) : Bool :=
  endsWithTif name &&
    htcYearStrings.contains (pySlice (pathJoin dir name) 4 8)

/-- Participation as the claim words it: the 4-digit year embedded in the
FILENAME (characters 4 to 8 of a name of the form HTC_<year>.tif, exactly
as phase one writes them) is the decimal string of a year of htc_years. -/
def claimedParticipation (name : String) : Bool :=
  endsWithTif name && htcYearStrings.contains (pySlice name 4 8)

/-- C8: with the configured directory, the file HTC_2003.tif — whose
filename embeds the year 2003, inside the configured range, so the claim
says it participates — is excluded from the median stack: the code slices
characters 4 to 8 out of the joined path, which are the directory
characters "_TO_", never a year. -/
theorem C8_year_filter_eval :
    htcFilter "PATH_TO_HTC_DATA/" "HTC_2003.tif" = false ∧
    pySlice (pathJoin "PATH_TO_HTC_DATA/" "HTC_2003.tif") 4 8 = "_TO_" ∧
    claimedParticipation "HTC_2003.tif" = true ∧
    pySlice "HTC_2003.tif" 4 8 = "2003" := by
  refine ⟨?_, ?_, ?_, ?_⟩ <;> decide

/-- The keyword arguments of one rasterio write-mode open call: driver,
grid shape, band count, dtype, and the optionally passed coordinate
reference system and affine transform (none when the call omits the
keyword, in which case the written raster carries no georeferencing). -/
structure RasterWrite where
  driver : String
  height : ℕ
  width : ℕ
  count : ℕ
  dtype : String
  crs : Option String
  transform : Option String
deriving DecidableEq, Repr

/-- The yearly HTC write of calculate_htc.py line 47: one float32 band,
no crs and no transform keyword. -/
def htc_yearly_write (h w : ℕ) : RasterWrite :=
  ⟨"GTiff", h, w, 1, "float32", none, none⟩

/-- The multi-year median write of calculate_htc.py line 68: one float32
band, no crs and no transform keyword. -/
def htc_median_write (h w : ℕ) : RasterWrite :=
  ⟨"GTiff", h, w, 1, "float32", none, none⟩

/-- The scaled-raster write of copernicus_tci.py lines 110-121: one uint8
band, with the source crs and transform passed through. -/
def scaled_write (h w : ℕ) (crs transform : String) : RasterWrite :=
  ⟨"GTiff", h, w, 1, "uint8", some crs, some transform⟩

/-- The color-mapped write of copernicus_tci.py lines 138-151: three
uint8 bands, with the source crs and transform passed through. -/
def color_write (h w : ℕ) (crs transform : String) : RasterWrite :=
  ⟨"GTiff", h, w, 3, "uint8", some crs, some transform⟩

/-- The write call passes the source coordinate reference system and
affine transform through to the output raster. -/
def carriesForward (wr : RasterWrite) (srcCrs srcTransform : String) : Prop :=
  wr.crs = some srcCrs ∧ wr.transform = some srcTransform

/-- C9 counterexample: the aggregator's yearly HTC write passes neither a
crs nor a transform keyword, so it does not carry forward the source
georeferencing — refuting the claim that every output raster the pipeline
does not explicitly reproject carries the source crs and transform. -/
theorem C9_aggregator_georef_counterexample :
    ¬ carriesForward (htc_yearly_write 100 100) "EPSG:4326" "src_affine" := by
  intro h
  exact Option.noConfusion h.1

/-- C9 (amended): the scaler's scaled and color-mapped writes carry the
source crs and transform forward; the aggregator's yearly and multi-year
median writes pass neither keyword, so those outputs carry no source
georeferencing. -/
theorem C9_georef_amended (h w : ℕ) (crs transform : String) :
    carriesForward (scaled_write h w crs transform) crs transform ∧
    carriesForward (color_write h w crs transform) crs transform ∧
    (htc_yearly_write h w).crs = none ∧
    (htc_yearly_write h w).transform = none ∧
    (htc_median_write h w).crs = none ∧
    (htc_median_write h w).transform = none :=
  ⟨⟨rfl, rfl⟩, ⟨rfl, rfl⟩, rfl, rfl, rfl, rfl⟩
